import Mathlib

/-!
Verification of the garmin-connect-client authentication core.

Shallow embedding of the TypeScript source:
  - errors.ts            : error class hierarchy, embedded as an inductive type
  - oauth-utils.ts       : setOauth2TokenExpiresAt
  - http-client.ts       : response-interceptor classification, retry-once logic,
                           and the single-flight token refresh state machine
  - authentication-service.ts : login / MFA / OAuth-exchange flow
  - auth-context.ts, client.ts, index.ts : session handle and client factory

Network I/O is modelled by scripting the responses a request would receive;
JavaScript truthiness on optional strings is modelled explicitly.
-/

namespace Garmin

/-! ## Data model (types.ts, auth-context.ts) -/

/-- OAuth 1.0 token, from the OAuth1Token interface in types.ts. -/
structure OAuth1Token where
  oauth_token : String
  oauth_token_secret : String
  deriving Repr, DecidableEq

/-- OAuth 2.0 token, from the OAuth2Token interface in types.ts.
Optional fields are those stamped later by setOauth2TokenExpiresAt.
The two ISO-rendered date strings are modelled by the epoch-millisecond
values they render (string formatting of dates is not modelled). -/
structure OAuth2Token where
  access_token : String := ""
  token_type : String := ""
  expires_in : Nat := 0
  refresh_token : String := ""
  refresh_token_expires_in : Nat := 0
  expires_at : Option Nat := none
  refresh_token_expires_at : Option Nat := none
  last_update_date : Option Nat := none
  expires_date : Option Nat := none
  deriving Repr, DecidableEq

/-- MFA method enum from auth-context.ts. -/
inductive MfaMethod
  | email
  | sms
  | phone
  deriving Repr, DecidableEq

/-- JavaScript String.prototype.toLowerCase, modelled over the character
list (ASCII case mapping). -/
def jsToLowerCase (s : String) : String :=
  String.mk (s.data.map Char.toLower)

/-- parseMfaMethod from auth-context.ts: lowercase match, defaulting to email. -/
def parseMfaMethod (method : String) : MfaMethod :=
  let normalized := jsToLowerCase method
  if normalized = "email" then .email
  else if normalized = "sms" then .sms
  else if normalized = "phone" then .phone
  else .email

/-- JavaScript truthiness of a possibly-absent string: undefined, null and
the empty string are falsy. -/
def truthy : Option String → Bool
  | none => false
  | some s => !(s == "")

/-- JavaScript String.prototype.trim, modelled over the character list:
strips leading and trailing whitespace. (The JS white-space set is larger
than the ASCII one used here; the difference plays no role in the claims.) -/
def jsTrim (s : String) : String :=
  String.mk (((s.data.dropWhile Char.isWhitespace).reverse.dropWhile Char.isWhitespace).reverse)

/-- JavaScript a-or-b on a possibly-absent string (the logical-or idiom):
returns the default when the value is absent or empty. -/
def strOr (v : Option String) (dflt : String) : String :=
  match v with
  | some s => if s = "" then dflt else s
  | none => dflt

/-! ## Response bodies

The zod LoginResponseSchema in authentication-service.ts is an all-optional
passthrough object; a body either parses under it (yielding the fields the
login logic inspects) or fails to parse. The interceptor in http-client.ts
additionally reads a raw errorMessage field, and the OAuth endpoints read
the body as raw text or as an OAuth2Token shape; a ResponseBody carries all
of those views of one wire body. -/

/-- The responseStatus object of LoginResponseSchema. -/
structure ResponseStatus where
  type : String
  message : Option String := none
  deriving Repr, DecidableEq

/-- The customerMfaInfo object of LoginResponseSchema (only the field the
code inspects). -/
structure CustomerMfaInfo where
  mfaLastMethodUsed : Option String := none
  deriving Repr, DecidableEq

/-- The fields of LoginResponseSchema that the authentication flow reads. -/
structure LoginResponse where
  serviceTicketId : Option String := none
  responseStatus : Option ResponseStatus := none
  customerMfaInfo : Option CustomerMfaInfo := none
  deriving Repr, DecidableEq

/-- One wire response body, seen through every view the code uses.
parsed is some r exactly when LoginResponseSchema.safeParse succeeds. -/
structure ResponseBody where
  parsed : Option LoginResponse := none
  errorMessage : Option String := none
  rawText : Option String := none
  oauth2 : Option OAuth2Token := none
  deriving Repr, DecidableEq

/-- Result of one transport round trip, before the response interceptor runs:
either a 2xx response with a body, or an axios error carrying the axios
message, the optional status code, status text and response data. -/
inductive RawResult
  | ok (body : ResponseBody)
  | axiosErr (emsg : String) (status : Option Nat) (statusText : Option String)
      (data : Option ResponseBody)
  deriving Repr, DecidableEq

/-! ## Error model (errors.ts)

Each constructor is one concrete error class thrown by the code, carrying
its message; http carries the HttpError payload, and zodParse stands for a
rethrown zod parse failure. -/

inductive GarminError
  | invalidCredentials (msg : String)
  | mfaCode (msg : String)
  | mfaCodeInvalid (msg : String)
  | notAuthenticated (msg : String)
  | oauthToken (msg : String)
  | authContext (msg : String)
  | http (msg : String) (statusCode : Option Nat) (statusText : Option String)
      (responseData : Option ResponseBody)
  | zodParse
  deriving Repr, DecidableEq

/-- The class of an error, abstracting away its payload; two errors are of
the same kind exactly when they are instances of the same error class. -/
inductive ErrorKind
  | invalidCredentials
  | mfaCode
  | mfaCodeInvalid
  | notAuthenticated
  | oauthToken
  | authContext
  | http
  | zodParse
  deriving Repr, DecidableEq

def GarminError.kind : GarminError → ErrorKind
  | .invalidCredentials _ => .invalidCredentials
  | .mfaCode _ => .mfaCode
  | .mfaCodeInvalid _ => .mfaCodeInvalid
  | .notAuthenticated _ => .notAuthenticated
  | .oauthToken _ => .oauthToken
  | .authContext _ => .authContext
  | .http _ _ _ _ => .http
  | .zodParse => .zodParse

/-! ## oauth-utils.ts -/

/-- setOauth2TokenExpiresAt from oauth-utils.ts. The current time enters as
epoch milliseconds (Date.now()); the source floors it to seconds and adds
the relative expiries. -/
def setOauth2TokenExpiresAt (nowMs : Nat) (token : OAuth2Token) : OAuth2Token :=
  let now := nowMs / 1000
  let expiresAt := now + token.expires_in
  let refreshExpiresAt := now + token.refresh_token_expires_in
  { token with
    last_update_date := some nowMs
    expires_date := some (expiresAt * 1000)
    expires_at := some expiresAt
    refresh_token_expires_at := some refreshExpiresAt }

/-! ## http-client.ts response interceptor -/

/-- Body marker the interceptor looks for on HTTP 400 responses. -/
def authHeaderMarker : String := "Authorization header is missing or incomplete."

/-- The check: data is an object whose errorMessage field equals the marker. -/
def hasAuthMarker : Option ResponseBody → Bool
  | some b => b.errorMessage == some authHeaderMarker
  | none => false

/-- The non-retry arm of the response interceptor in HttpClient.setupInterceptors:
maps an axios error to the error the caller sees. 403 becomes
NotAuthenticatedError; 400 with the authorization-header marker in the body
becomes NotAuthenticatedError; everything else becomes HttpError. -/
def classifyAxiosError (emsg : String) (status : Option Nat) (statusText : Option String)
    (data : Option ResponseBody) : GarminError :=
  if status == some 403 then
    .notAuthenticated ("Request failed: " ++ emsg)
  else if status == some 400 && hasAuthMarker data then
    .notAuthenticated ("Request failed: " ++ emsg)
  else
    .http ("HTTP request failed: " ++ emsg) status statusText data

/-- One request issued through the authenticated client, with its responses
scripted: the first RawResult answers the original submission and the list
answers any resubmission. hasBoth says whether both the OAuth1 and OAuth2
tokens are held; refresh is the outcome refreshToken would produce; the
retried flag is the one-shot retry marker on the request config.
Returns the outcome, the number of submissions issued, and the number of
refresh invocations. -/
def submitRequest (hasBoth : Bool) (refresh : Except GarminError String) :
    Bool → RawResult → List RawResult → Except GarminError ResponseBody × Nat × Nat
  | _retried, .ok b, _ => (.ok b, 1, 0)
  | retried, .axiosErr emsg status statusText data, rest =>
    if status == some 401 && !retried && hasBoth then
      match refresh with
      | .error e => (.error e, 1, 1)
      | .ok _newToken =>
        match rest with
        | [] => (.error (.http "no response" none none none), 1, 1)
        | r :: rest2 =>
          let out := submitRequest hasBoth refresh true r rest2
          (out.1, out.2.1 + 1, out.2.2 + 1)
    else
      (.error (classifyAxiosError emsg status statusText data), 1, 0)

/-! ## auth-context.ts -/

/-- The AuthContext session handle from auth-context.ts. -/
structure AuthContext where
  mfaRequired : Bool
  cookies : String
  mfaMethod : Option MfaMethod := none
  ticket : Option String := none
  oauth1Token : Option OAuth1Token := none
  oauth2Token : Option OAuth2Token := none
  deriving Repr, DecidableEq

/-! ## authentication-service.ts -/

/-- The discriminated AuthenticationParameters union. -/
inductive AuthenticationParameters
  | ticket (ticket : String)
  | mfa (mfaCode : String) (mfaMethod : MfaMethod)
  deriving Repr, DecidableEq

/-- The LoginTicketResult discriminated union inside authentication-service.ts. -/
inductive LoginTicketResult
  | success (ticket : String)
  | mfaRequired (mfaMethod : MfaMethod)
  deriving Repr, DecidableEq

/-- The type field of the responseStatus object, when one is present. -/
def statusType (lr : LoginResponse) : Option String :=
  lr.responseStatus.map fun rs => rs.type

/-- parseLoginResponseError: an HttpError with truthy response data whose data
parses under LoginResponseSchema yields that parse. -/
def parseLoginResponseError : GarminError → Option LoginResponse
  | .http _ _ _ (some b) => b.parsed
  | _ => none

/-- extractInvalidCredentialsError from authentication-service.ts. -/
def extractInvalidCredentialsError (e : GarminError) : Option GarminError :=
  let fromBody : Bool :=
    match parseLoginResponseError e with
    | some lr => statusType lr == some "INVALID_USERNAME_PASSWORD"
    | none => false
  if fromBody then
    some (.invalidCredentials "Invalid username or password")
  else
    match e with
    | .http _ (some c) _ _ =>
      if c = 401 ∨ c = 403 then some (.invalidCredentials "Invalid username or password")
      else none
    | _ => none

/-- extractMfaCodeInvalidError from authentication-service.ts: an embedded
SESSION_EXPIRED status wins; otherwise 401/403 mean an invalid code and 409
means an expired session. -/
def extractMfaCodeInvalidError (e : GarminError) : Option GarminError :=
  let fromStatusCode : Option GarminError :=
    match e with
    | .http _ (some c) _ _ =>
      if c = 401 ∨ c = 403 then some (.mfaCodeInvalid "Invalid MFA code")
      else if c = 409 then some (.mfaCodeInvalid "Session expired. Please try logging in again.")
      else none
    | _ => none
  match parseLoginResponseError e with
  | some lr =>
    match lr.responseStatus with
    | some rs =>
      if rs.type = "SESSION_EXPIRED" then
        some (.mfaCodeInvalid "Session expired. Please try logging in again.")
      else fromStatusCode
    | none => fromStatusCode
  | none => fromStatusCode

/-- AuthenticationService.verifyMfaCode, over the scripted response of the
MFA-verify POST issued through the unauthenticated HttpClient (so an axios
error reaches the catch block already classified by the response
interceptor). An embedded MFA_CODE_INVALID status on a 2xx response is
rejected; a zod parse failure is rethrown unchanged, as is any error the
helper does not recognise. -/
def verifyMfaCode (rVerify : RawResult) : Except GarminError LoginResponse :=
  match rVerify with
  | .ok body =>
    match body.parsed with
    | none => .error .zodParse
    | some result =>
      match result.responseStatus with
      | some rs =>
        if rs.type = "MFA_CODE_INVALID" then
          .error (.mfaCodeInvalid
            (strOr rs.message "Invalid MFA code. Please check your code and try again."))
        else .ok result
      | none => .ok result
  | .axiosErr emsg status statusText data =>
    let e := classifyAxiosError emsg status statusText data
    match extractMfaCodeInvalidError e with
    | some me => .error me
    | none => .error e

/-- AuthenticationService.extractServiceTicketId. The second pair component
counts the network calls issued. A blank MFA code fails locally; a verified
code whose response carries no (truthy) serviceTicketId fails with the
ticket-not-found MfaCodeInvalidError. -/
def extractServiceTicketId (parameters : AuthenticationParameters) (rVerify : RawResult) :
    Except GarminError String × Nat :=
  match parameters with
  | .ticket t => (.ok t, 0)
  | .mfa mfaCode _mfaMethod =>
    if jsTrim mfaCode = "" then
      (.error (.mfaCode "MFA code cannot be empty"), 0)
    else
      match verifyMfaCode rVerify with
      | .error e => (.error e, 1)
      | .ok mfaResult =>
        if truthy mfaResult.serviceTicketId then
          (.ok (mfaResult.serviceTicketId.getD ""), 1)
        else
          (.error (.mfaCodeInvalid
            "MFA code submitted but ticket not found - please check your MFA code"), 1)

/-- AuthenticationService.getLoginTicket over the scripted responses of the
sign-in-page GET and the login POST. The second component counts network
calls. A parsed body with a truthy ticket wins; else an MFA_REQUIRED status
yields the MFA method (the or-email default of the source); else
InvalidCredentialsError. Errors of the POST go through
extractInvalidCredentialsError. -/
def getLoginTicket (rSignIn rLogin : RawResult) : Except GarminError LoginTicketResult × Nat :=
  match rSignIn with
  | .axiosErr emsg status statusText data =>
    (.error (classifyAxiosError emsg status statusText data), 1)
  | .ok _ =>
    match rLogin with
    | .axiosErr emsg status statusText data =>
      let e := classifyAxiosError emsg status statusText data
      match extractInvalidCredentialsError e with
      | some ce => (.error ce, 2)
      | none => (.error e, 2)
    | .ok body =>
      match body.parsed with
      | none => (.error .zodParse, 2)
      | some loginResponse =>
        if truthy loginResponse.serviceTicketId then
          (.ok (.success (loginResponse.serviceTicketId.getD "")), 2)
        else if statusType loginResponse = some "MFA_REQUIRED" then
          (.ok (.mfaRequired (parseMfaMethod
            (strOr (loginResponse.customerMfaInfo.bind fun i => i.mfaLastMethodUsed) "email"))), 2)
        else
          (.error (.invalidCredentials
            "login failed (Ticket not found or MFA), please check username and password"), 2)

/-- Result of AuthenticationService.startAuthentication: either
AuthenticationSuccess or MfaRequiredResult, each carrying the cookie
snapshot taken from the throwaway HttpClient. -/
inductive StartAuthResult
  | success (ticket : String) (cookies : String)
  | mfaRequired (mfaMethod : MfaMethod) (cookies : String)
  deriving Repr, DecidableEq

/-- AuthenticationService.startAuthentication. Cookie-jar contents are opaque
here: cookiesOut stands for whatever httpClient.getCookies() returns after
the login round trips. -/
def startAuthentication (cookiesOut : String) (rSignIn rLogin : RawResult) :
    Except GarminError StartAuthResult :=
  match (getLoginTicket rSignIn rLogin).1 with
  | .error e => .error e
  | .ok (.success t) => .ok (.success t cookiesOut)
  | .ok (.mfaRequired m) => .ok (.mfaRequired m cookiesOut)

/-- AuthenticationService.getOauth1Token response handling: the query-string
body is read with URLSearchParams and missing fields default to the empty
string. Percent-decoding of the platform parser is not modelled. -/
def parseQueryParam (s key : String) : Option String :=
  (s.splitOn "&").findSome? fun pair =>
    match pair.splitOn "=" with
    | [] => none
    | k :: rest => if k = key then some (String.intercalate "=" rest) else none

def getOauth1Token (rPreauth : RawResult) : Except GarminError OAuth1Token :=
  match rPreauth with
  | .axiosErr emsg status statusText data =>
    .error (classifyAxiosError emsg status statusText data)
  | .ok body =>
    let response := body.rawText.getD ""
    .ok { oauth_token := (parseQueryParam response "oauth_token").getD ""
          oauth_token_secret := (parseQueryParam response "oauth_token_secret").getD "" }

/-- AuthenticationService.exchange response handling: the JSON body is cast to
the OAuth2Token shape without validation (a body of another shape yields the
all-default token the unchecked cast would produce), then stamped with
absolute expiry timestamps. -/
def exchange (rExchange : RawResult) (nowMs : Nat) : Except GarminError OAuth2Token :=
  match rExchange with
  | .axiosErr emsg status statusText data =>
    .error (classifyAxiosError emsg status statusText data)
  | .ok body => .ok (setOauth2TokenExpiresAt nowMs (body.oauth2.getD {}))

/-- AuthenticationService.completeAuthentication: extract a ticket (directly
or through MFA verification), then run both OAuth exchange steps, and build
the fully authenticated context. The second component counts network calls;
cookie-jar evolution across the calls is not modelled, so the handle carries
the input cookie string. -/
def completeAuthentication (cookies : String) (parameters : AuthenticationParameters)
    (rVerify rPreauth rExchange : RawResult) (nowMs : Nat) :
    Except GarminError AuthContext × Nat :=
  match extractServiceTicketId parameters rVerify with
  | (.error e, n) => (.error e, n)
  | (.ok _serviceTicketId, n) =>
    match getOauth1Token rPreauth with
    | .error e => (.error e, n + 1)
    | .ok oauth1Token =>
      match exchange rExchange nowMs with
      | .error e => (.error e, n + 2)
      | .ok oauth2Token =>
        (.ok { mfaRequired := false, cookies := cookies, mfaMethod := none, ticket := none
               oauth1Token := some oauth1Token, oauth2Token := some oauth2Token }, n + 2)

/-! ## index.ts and client.ts -/

/-- createAuthContext from index.ts: wraps the startAuthentication result in
an AuthContext session handle. -/
def createAuthContext : StartAuthResult → AuthContext
  | .success ticket cookies =>
    { mfaRequired := false, cookies := cookies, mfaMethod := none, ticket := some ticket }
  | .mfaRequired m cookies =>
    { mfaRequired := true, cookies := cookies, mfaMethod := some m, ticket := none }

/-- GarminConnectClientImpl.create from client.ts: validates the session
handle before any network call, then completes authentication on the MFA or
ticket branch. The second component counts network calls. -/
def GarminConnectClientImpl.create (context : AuthContext) (mfaCode : Option String)
    (rVerify rPreauth rExchange : RawResult) (nowMs : Nat) :
    Except GarminError AuthContext × Nat :=
  if context.mfaRequired then
    if truthy mfaCode = false then
      (.error (.mfaCode "MFA code is required when mfaRequired is true"), 0)
    else
      match context.mfaMethod with
      | none => (.error (.authContext "MFA method not found in auth context"), 0)
      | some m =>
        completeAuthentication context.cookies (.mfa (mfaCode.getD "") m)
          rVerify rPreauth rExchange nowMs
  else
    if truthy context.ticket = false then
      (.error (.authContext "Ticket not found in auth context"), 0)
    else
      completeAuthentication context.cookies (.ticket (context.ticket.getD ""))
        rVerify rPreauth rExchange nowMs

/-- Spec-side predicate used to state the MFA error-classification claim: the
response data parses and carries an embedded SESSION_EXPIRED status. -/
def embeddedSessionExpired : Option ResponseBody → Bool
  | some b =>
    match b.parsed with
    | some lr =>
      match lr.responseStatus with
      | some rs => rs.type == "SESSION_EXPIRED"
      | none => false
    | none => false
  | none => false

/-! ## HttpClient.refreshToken single-flight state machine

The event loop runs each synchronous section of refreshToken atomically:
from the method entry to the point where the async exchange IIFE first
suspends there is no await, so the check of the isRefreshing flag and the
installation of the shared refreshPromise happen in one indivisible step.
The machine below has one task per concurrent 401 handler; a call event is
that synchronous section, a resolve event is the completion of the in-flight
exchange call (which stores the new token and clears the flag, as the IIFE
body and its finally block do), and a resume event is an awaiting task
picking up the settled value of the promise it holds. Promises are named by
the index of the exchange call that created them; exchangeCalls counts the
POSTs issued to the OAuth exchange endpoint. -/

/-- What one 401 handler inside refreshToken is doing. -/
inductive TaskState
  | idle
  | awaiting (id : Nat)
  | done (token : String)
  | failed
  deriving Repr, DecidableEq

/-- True exactly for a task holding a refreshed token. -/
def TaskState.isDone : TaskState → Bool
  | .done _ => true
  | _ => false

/-- Shared state of one HttpClient: the oauth1 token needed by refreshToken,
the isRefreshing flag, the count of exchange calls issued, the settled
promises, the held oauth2 access token, and the per-task states. -/
structure RefreshState where
  oauth1Present : Bool
  isRefreshing : Bool
  exchangeCalls : Nat
  resolved : List (Nat × String)
  heldToken : Option String
  tasks : List TaskState
  deriving Repr, DecidableEq

/-- Scheduler events interleaving the concurrent 401 handlers. -/
inductive RefreshEvent
  | call (i : Nat)
  | resolve (tok : String)
  | resume (i : Nat)
  deriving Repr, DecidableEq

/-- First settled value recorded for a promise id. -/
def lookupResolved : List (Nat × String) → Nat → Option String
  | [], _ => none
  | (k, t) :: rest, id => if k = id then some t else lookupResolved rest id

/-- One atomic step. A call with no oauth1 token throws OAuthTokenError and
the task fails; a call that finds isRefreshing set joins the in-flight
promise; otherwise it sets the flag, counts a new exchange call and awaits
the promise it just installed. A resolve settles the in-flight exchange:
the IIFE stores the new oauth2 token and its finally block clears the flag.
A resume completes a task whose awaited promise has settled. -/
def step (s : RefreshState) : RefreshEvent → Option RefreshState
  | .call i =>
    match s.tasks[i]? with
    | some .idle =>
      if !s.oauth1Present then
        some { s with tasks := s.tasks.set i .failed }
      else if s.isRefreshing then
        some { s with tasks := s.tasks.set i (.awaiting s.exchangeCalls) }
      else
        some { s with isRefreshing := true
                      exchangeCalls := s.exchangeCalls + 1
                      tasks := s.tasks.set i (.awaiting (s.exchangeCalls + 1)) }
    | _ => none
  | .resolve tok =>
    if s.isRefreshing then
      some { s with isRefreshing := false
                    heldToken := some tok
                    resolved := (s.exchangeCalls, tok) :: s.resolved }
    else none
  | .resume i =>
    match s.tasks[i]? with
    | some (.awaiting id) =>
      match lookupResolved s.resolved id with
      | some tok => some { s with tasks := s.tasks.set i (.done tok) }
      | none => none
    | _ => none

/-- Run a list of events from a state; none when some event is not enabled. -/
def run (s : RefreshState) : List RefreshEvent → Option RefreshState
  | [] => some s
  | e :: rest =>
    match step s e with
    | some s2 => run s2 rest
    | none => none

/-- Initial state for n concurrent 401 handlers on a client holding both
tokens (oldTok being the expired oauth2 access token). -/
def initState (n : Nat) (oldTok : String) : RefreshState :=
  { oauth1Present := true, isRefreshing := false, exchangeCalls := 0,
    resolved := [], heldToken := some oldTok, tasks := List.replicate n .idle }

/-- Whether a trace contains a call event. -/
def hasCall : List RefreshEvent → Bool
  | [] => false
  | .call _ :: _ => true
  | _ :: rest => hasCall rest

/-- The simultaneity hypothesis of the claim: every 401 handler invokes
refreshToken before the in-flight refresh resolves, i.e. no call event
follows a resolve event. -/
def singleFlightPhase : List RefreshEvent → Bool
  | [] => true
  | .resolve _ :: rest => !hasCall rest
  | _ :: rest => singleFlightPhase rest

/-- Invariant before the refresh resolves: the oauth1 token is present,
nothing has settled, and either no refresh has started and every task is
idle, or exactly one exchange call is in flight and every task is idle or
awaiting promise 1. -/
def PreResolve (s : RefreshState) : Prop :=
  s.oauth1Present = true ∧ s.resolved = [] ∧
  ((s.isRefreshing = false ∧ s.exchangeCalls = 0 ∧ ∀ x ∈ s.tasks, x = TaskState.idle) ∨
   (s.isRefreshing = true ∧ s.exchangeCalls = 1 ∧
     ∀ x ∈ s.tasks, x = TaskState.idle ∨ x = TaskState.awaiting 1))

/-- Invariant after the single refresh resolved with token t: one exchange
call was issued, promise 1 settled with t, the held token is t, and every
task is idle, awaiting promise 1, or done with t. -/
def PostResolve (t : String) (s : RefreshState) : Prop :=
  s.exchangeCalls = 1 ∧ s.isRefreshing = false ∧ s.resolved = [(1, t)] ∧
  s.heldToken = some t ∧
  ∀ x ∈ s.tasks, x = TaskState.idle ∨ x = TaskState.awaiting 1 ∨ x = TaskState.done t

end Garmin

/-! ## Theorems -/

open Garmin

/-- A request already marked retried is never resubmitted: it consumes exactly
one response. -/
theorem submitRequest_retried_submissions (hasBoth : Bool) (refresh : Except GarminError String)
    (r : RawResult) (rs : List RawResult) :
    (submitRequest hasBoth refresh true r rs).2.1 = 1 := by
  cases r with
  | ok b => rw [submitRequest.eq_def]
  | axiosErr emsg status st d =>
    rw [submitRequest.eq_def]
    simp

/-- C2: retry-once bound. An authenticated request whose original submission
receives a 401 and whose resubmission after a successful refresh receives a
401 again fails with the error classified from the second response, after
exactly two submissions and one refresh; and in general a request entering
with a clear retry flag is submitted at most twice. -/
theorem C2_retry_once_bound (emsg1 emsg2 : String) (st1 st2 : Option String)
    (d1 d2 : Option ResponseBody) (tok : String) (rest : List RawResult) :
    submitRequest true (.ok tok) false (.axiosErr emsg1 (some 401) st1 d1)
        (.axiosErr emsg2 (some 401) st2 d2 :: rest)
      = (.error (.http ("HTTP request failed: " ++ emsg2) (some 401) st2 d2), 2, 1) ∧
    (∀ (hasBoth : Bool) (refresh : Except GarminError String) (r : RawResult)
        (rs : List RawResult),
      (submitRequest hasBoth refresh false r rs).2.1 ≤ 2) := by
  constructor
  · rw [submitRequest.eq_def]
    simp only [Bool.not_false, Bool.and_true, Bool.true_and]
    rw [show ((some 401 : Option Nat) == some 401) = true from rfl]
    simp only [if_true, reduceIte]
    rw [submitRequest.eq_def]
    simp [classifyAxiosError]
  · intro hasBoth refresh r rs
    cases r with
    | ok b =>
      rw [submitRequest.eq_def]
      simp
    | axiosErr emsg status st d =>
      rw [submitRequest.eq_def]
      cases hc : status == some 401 && !false && hasBoth with
      | false =>
        simp only [hc, Bool.false_eq_true, if_false]
        omega
      | true =>
        simp only [hc, if_true]
        cases refresh with
        | error e => simp
        | ok tk =>
          cases rs with
          | nil => simp
          | cons r2 rs2 =>
            simp [submitRequest_retried_submissions]

/-- C8: a 403 on an authenticated call, and a 400 whose body carries the
authorization-header error message, are surfaced as NotAuthenticatedError,
not as a generic HttpError, with one submission and zero refresh attempts,
whatever the token and retry state. -/
theorem C8_not_authenticated_mapping (hasBoth retried : Bool)
    (refresh : Except GarminError String) (emsg : String) (st : Option String)
    (d : Option ResponseBody) (rest : List RawResult) :
    submitRequest hasBoth refresh retried (.axiosErr emsg (some 403) st d) rest
      = (.error (.notAuthenticated ("Request failed: " ++ emsg)), 1, 0) ∧
    (hasAuthMarker d = true →
      submitRequest hasBoth refresh retried (.axiosErr emsg (some 400) st d) rest
        = (.error (.notAuthenticated ("Request failed: " ++ emsg)), 1, 0)) := by
  constructor
  · rw [submitRequest.eq_def]
    simp [classifyAxiosError]
  · intro h
    rw [submitRequest.eq_def]
    simp [classifyAxiosError, h]

/-- Concrete run of the C8 mapping: a 403 response and a 400 response with
the marker body both surface NotAuthenticatedError without a refresh. -/
theorem C8_not_authenticated_mapping_witness :
    submitRequest true (.ok "tok") false
        (.axiosErr "Request failed with status code 400" (some 400) (some "Bad Request")
          (some { errorMessage := some "Authorization header is missing or incomplete." })) []
      = (.error (.notAuthenticated
          "Request failed: Request failed with status code 400"), 1, 0) :=
  (C8_not_authenticated_mapping true false (.ok "tok")
    "Request failed with status code 400" (some "Bad Request")
    (some { errorMessage := some "Authorization header is missing or incomplete." }) []).2
    (by decide)

/-- C6: expiry stamping. Processing a raw token response at time T =
nowMs / 1000 seconds stamps expires_at = T + expires_in and
refresh_token_expires_at = T + refresh_token_expires_in, and a later
refresh stamp at time T2 recomputes both fields from T2 alone, with no
dependence on the original stamping time. -/
theorem C6_expiry_stamping (nowMs : Nat) (t : OAuth2Token) :
    (setOauth2TokenExpiresAt nowMs t).expires_at = some (nowMs / 1000 + t.expires_in) ∧
    (setOauth2TokenExpiresAt nowMs t).refresh_token_expires_at
      = some (nowMs / 1000 + t.refresh_token_expires_in) ∧
    (∀ nowMs2 : Nat,
      (setOauth2TokenExpiresAt nowMs2 (setOauth2TokenExpiresAt nowMs t)).expires_at
        = some (nowMs2 / 1000 + t.expires_in) ∧
      (setOauth2TokenExpiresAt nowMs2 (setOauth2TokenExpiresAt nowMs t)).refresh_token_expires_at
        = some (nowMs2 / 1000 + t.refresh_token_expires_in)) := by
  refine ⟨rfl, rfl, fun nowMs2 => ⟨rfl, rfl⟩⟩

/-- C5: a blank (empty or whitespace-only) MFA code makes completeAuthentication
fail with MfaCodeError before any network call: zero requests are issued. -/
theorem C5_empty_mfa_code_no_network (cookies mfaCode : String) (m : MfaMethod)
    (rVerify rPreauth rExchange : RawResult) (nowMs : Nat)
    (h : jsTrim mfaCode = "") :
    completeAuthentication cookies (.mfa mfaCode m) rVerify rPreauth rExchange nowMs
      = (.error (.mfaCode "MFA code cannot be empty"), 0) := by
  simp [completeAuthentication, extractServiceTicketId, h]

/-- Concrete run of C5 with a whitespace-only code. -/
theorem C5_empty_mfa_code_no_network_witness :
    completeAuthentication "jar" (.mfa "   " .email) (.ok {}) (.ok {}) (.ok {}) 0
      = (.error (.mfaCode "MFA code cannot be empty"), 0) :=
  C5_empty_mfa_code_no_network "jar" "   " .email (.ok {}) (.ok {}) (.ok {}) 0 (by decide)

/-- C10: the client factory validates the session handle before any network
request: MFA required without a code fails with MfaCodeError; MFA required
without a method fails with AuthenticationContextError; no MFA and no ticket
fails with AuthenticationContextError; all with zero network calls. -/
theorem C10_create_fail_fast (context : AuthContext) (mfaCode : Option String)
    (rVerify rPreauth rExchange : RawResult) (nowMs : Nat) :
    (context.mfaRequired = true → mfaCode = none →
      GarminConnectClientImpl.create context mfaCode rVerify rPreauth rExchange nowMs
        = (.error (.mfaCode "MFA code is required when mfaRequired is true"), 0)) ∧
    (context.mfaRequired = true → truthy mfaCode = true → context.mfaMethod = none →
      GarminConnectClientImpl.create context mfaCode rVerify rPreauth rExchange nowMs
        = (.error (.authContext "MFA method not found in auth context"), 0)) ∧
    (context.mfaRequired = false → context.ticket = none →
      GarminConnectClientImpl.create context mfaCode rVerify rPreauth rExchange nowMs
        = (.error (.authContext "Ticket not found in auth context"), 0)) := by
  refine ⟨?_, ?_, ?_⟩
  · intro hm hc
    subst hc
    simp [GarminConnectClientImpl.create, hm, truthy]
  · intro hm hc hmm
    simp [GarminConnectClientImpl.create, hm, hc, hmm]
  · intro hm ht
    simp [GarminConnectClientImpl.create, hm, ht, truthy]

/-- Concrete run of C10: MFA required and no code supplied fails locally. -/
theorem C10_create_fail_fast_witness :
    GarminConnectClientImpl.create
        { mfaRequired := true, cookies := "jar", mfaMethod := some .email } none
        (.ok {}) (.ok {}) (.ok {}) 0
      = (.error (.mfaCode "MFA code is required when mfaRequired is true"), 0) :=
  (C10_create_fail_fast
    { mfaRequired := true, cookies := "jar", mfaMethod := some .email } none
    (.ok {}) (.ok {}) (.ok {}) 0).1 rfl rfl

/-- A 200 MFA-verify body that parses, carries no failure status and no
serviceTicketId: the vendor accepted the code but returned no ticket. -/
def mfaTicketMissingBody : ResponseBody :=
  { parsed := some {} }

/-- A 200 MFA-verify body with an embedded MFA_CODE_INVALID status. -/
def mfaCodeInvalidBody : ResponseBody :=
  { parsed := some { responseStatus := some { type := "MFA_CODE_INVALID" } } }

/-- C3 fails on the code: when the vendor accepts the code but returns no
ticket, the flow throws MfaCodeInvalidError, the same error class the
invalid-code path throws, so the failure kind is not distinct from the
invalid-MFA-code kind. -/
theorem C3_counterexample :
    (extractServiceTicketId (.mfa "123456" .email) (.ok mfaTicketMissingBody)).1
      = .error (.mfaCodeInvalid
          "MFA code submitted but ticket not found - please check your MFA code") ∧
    (extractServiceTicketId (.mfa "123456" .email) (.ok mfaCodeInvalidBody)).1
      = .error (.mfaCodeInvalid
          "Invalid MFA code. Please check your code and try again.") ∧
    GarminError.kind (.mfaCodeInvalid
        "MFA code submitted but ticket not found - please check your MFA code")
      = GarminError.kind (.mfaCodeInvalid
          "Invalid MFA code. Please check your code and try again.") :=
  ⟨rfl, rfl, rfl⟩

/-- C3 amended: a ticket-missing MFA completion fails with MfaCodeInvalidError
carrying the distinct ticket-not-found message; it is distinguishable from
the invalid-code failures only by message, not by error class. -/
theorem C3_amended_ticket_missing (code : String) (m : MfaMethod) (body : ResponseBody)
    (lr : LoginResponse)
    (hcode : ¬ jsTrim code = "")
    (hp : body.parsed = some lr)
    (hstatus : ∀ rs, lr.responseStatus = some rs → ¬ rs.type = "MFA_CODE_INVALID")
    (hticket : truthy lr.serviceTicketId = false) :
    (extractServiceTicketId (.mfa code m) (.ok body)).1
      = .error (.mfaCodeInvalid
          "MFA code submitted but ticket not found - please check your MFA code") ∧
    ¬ ("MFA code submitted but ticket not found - please check your MFA code"
        = "Invalid MFA code. Please check your code and try again.") ∧
    ¬ ("MFA code submitted but ticket not found - please check your MFA code"
        = "Invalid MFA code") := by
  refine ⟨?_, by decide, by decide⟩
  simp only [extractServiceTicketId, if_neg hcode, verifyMfaCode, hp]
  cases hrs : lr.responseStatus with
  | none => simp [hticket]
  | some rs => simp [hticket, hstatus rs hrs]

/-- Concrete run of the amended C3. -/
theorem C3_amended_ticket_missing_witness :
    (extractServiceTicketId (.mfa "123456" .email) (.ok mfaTicketMissingBody)).1
      = .error (.mfaCodeInvalid
          "MFA code submitted but ticket not found - please check your MFA code") :=
  (C3_amended_ticket_missing "123456" .email mfaTicketMissingBody {} (by decide) rfl
    (fun rs h => nomatch h) rfl).1

/-- C4 fails on the code for the 403 case: the response interceptor maps an
HTTP 403 from the MFA-verify endpoint to NotAuthenticatedError before the
MFA error classification can see it, so the failure is neither an
MfaCodeInvalidError nor an InvalidCredentialsError. -/
theorem C4_counterexample :
    verifyMfaCode (.axiosErr "Request failed with status code 403" (some 403)
        (some "Forbidden") none)
      = .error (.notAuthenticated "Request failed: Request failed with status code 403") ∧
    ¬ GarminError.kind (.notAuthenticated "Request failed: Request failed with status code 403")
        = ErrorKind.mfaCodeInvalid ∧
    ¬ GarminError.kind (.notAuthenticated "Request failed: Request failed with status code 403")
        = ErrorKind.invalidCredentials :=
  ⟨rfl, by decide, by decide⟩

/-- C4 amended: a 200 MFA-verify response with an embedded MFA_CODE_INVALID
status fails with MfaCodeInvalidError (never success); HTTP 401 without an
embedded SESSION_EXPIRED status fails with the invalid-code
MfaCodeInvalidError; HTTP 403 fails with NotAuthenticatedError (mapped by
the interceptor, not the MFA classifier); HTTP 409, or an embedded
SESSION_EXPIRED status in an error body that still reaches the MFA
classifier, fails with the session-expired MfaCodeInvalidError. -/
theorem C4_amended_mfa_error_classification :
    (∀ (body : ResponseBody) (lr : LoginResponse) (rs : ResponseStatus),
      body.parsed = some lr → lr.responseStatus = some rs → rs.type = "MFA_CODE_INVALID" →
      verifyMfaCode (.ok body)
        = .error (.mfaCodeInvalid
            (strOr rs.message "Invalid MFA code. Please check your code and try again."))) ∧
    (∀ (emsg : String) (st : Option String) (d : Option ResponseBody),
      embeddedSessionExpired d = false →
      verifyMfaCode (.axiosErr emsg (some 401) st d)
        = .error (.mfaCodeInvalid "Invalid MFA code")) ∧
    (∀ (emsg : String) (st : Option String) (d : Option ResponseBody),
      verifyMfaCode (.axiosErr emsg (some 403) st d)
        = .error (.notAuthenticated ("Request failed: " ++ emsg))) ∧
    (∀ (emsg : String) (st : Option String) (d : Option ResponseBody),
      verifyMfaCode (.axiosErr emsg (some 409) st d)
        = .error (.mfaCodeInvalid "Session expired. Please try logging in again.")) ∧
    (∀ (emsg : String) (status : Option Nat) (st : Option String) (b : ResponseBody),
      embeddedSessionExpired (some b) = true →
      ¬ status = some 403 → ¬ (status = some 400 ∧ hasAuthMarker (some b) = true) →
      verifyMfaCode (.axiosErr emsg status st (some b))
        = .error (.mfaCodeInvalid "Session expired. Please try logging in again.")) := by
  refine ⟨?_, ?_, ?_, ?_, ?_⟩
  · intro body lr rs hp hrs htype
    simp [verifyMfaCode, hp, hrs, htype]
  · intro emsg st d hse
    cases d with
    | none => rfl
    | some b =>
      cases hb : b.parsed with
      | none =>
        simp [verifyMfaCode, classifyAxiosError, extractMfaCodeInvalidError,
          parseLoginResponseError, hb]
      | some lr =>
        cases hrs : lr.responseStatus with
        | none =>
          simp [verifyMfaCode, classifyAxiosError, extractMfaCodeInvalidError,
            parseLoginResponseError, hb, hrs]
        | some rs =>
          have hty : ¬ rs.type = "SESSION_EXPIRED" := by
            simp [embeddedSessionExpired, hb, hrs] at hse
            exact hse
          simp [verifyMfaCode, classifyAxiosError, extractMfaCodeInvalidError,
            parseLoginResponseError, hb, hrs, hty]
  · intro emsg st d
    rfl
  · intro emsg st d
    cases d with
    | none => rfl
    | some b =>
      cases hb : b.parsed with
      | none =>
        simp [verifyMfaCode, classifyAxiosError, extractMfaCodeInvalidError,
          parseLoginResponseError, hb]
      | some lr =>
        cases hrs : lr.responseStatus with
        | none =>
          simp [verifyMfaCode, classifyAxiosError, extractMfaCodeInvalidError,
            parseLoginResponseError, hb, hrs]
        | some rs =>
          by_cases hty : rs.type = "SESSION_EXPIRED" <;>
            simp [verifyMfaCode, classifyAxiosError, extractMfaCodeInvalidError,
              parseLoginResponseError, hb, hrs, hty]
  · intro emsg status st b hse h403 h400
    cases hb : b.parsed with
    | none => simp [embeddedSessionExpired, hb] at hse
    | some lr =>
      cases hrs : lr.responseStatus with
      | none => simp [embeddedSessionExpired, hb, hrs] at hse
      | some rs =>
        have hty : rs.type = "SESSION_EXPIRED" := by
          simpa [embeddedSessionExpired, hb, hrs] using hse
        have h1 : ((status == some 403) : Bool) = false := by
          simp [h403]
        have hclass : classifyAxiosError emsg status st (some b)
            = .http ("HTTP request failed: " ++ emsg) status st (some b) := by
          by_cases h4 : status = some 400
          · have hm : hasAuthMarker (some b) = false := by
              rcases Bool.eq_false_or_eq_true (hasAuthMarker (some b)) with hm | hm
              · exact absurd ⟨h4, hm⟩ h400
              · exact hm
            simp [classifyAxiosError, h1, h4, hm]
          · have h2 : ((status == some 400) : Bool) = false := by
              simp [h4]
            simp [classifyAxiosError, h1, h2]
        simp [verifyMfaCode, hclass, extractMfaCodeInvalidError,
          parseLoginResponseError, hb, hrs, hty]

/-- Concrete run of the amended C4: a plain 401 from the MFA-verify endpoint
fails with the invalid-code MfaCodeInvalidError. -/
theorem C4_amended_mfa_error_classification_witness :
    verifyMfaCode (.axiosErr "Request failed with status code 401" (some 401) none none)
      = .error (.mfaCodeInvalid "Invalid MFA code") :=
  C4_amended_mfa_error_classification.2.1 "Request failed with status code 401" none none rfl

/-- C9: classification of a parsed login response: a truthy serviceTicketId
wins and is returned as Success; otherwise an MFA_REQUIRED status yields
MfaRequired with the parsed method, defaulting to email when the vendor
omits the method field; otherwise the flow fails with
InvalidCredentialsError. -/
theorem C9_login_outcome_classification (rSignInBody body : ResponseBody) (lr : LoginResponse)
    (hp : body.parsed = some lr) :
    (∀ t, lr.serviceTicketId = some t → ¬ t = "" →
      (getLoginTicket (.ok rSignInBody) (.ok body)).1 = .ok (.success t)) ∧
    (truthy lr.serviceTicketId = false → statusType lr = some "MFA_REQUIRED" →
      (getLoginTicket (.ok rSignInBody) (.ok body)).1
        = .ok (.mfaRequired (parseMfaMethod
            (strOr (lr.customerMfaInfo.bind fun i => i.mfaLastMethodUsed) "email"))) ∧
      ((lr.customerMfaInfo.bind fun i => i.mfaLastMethodUsed) = none →
        (getLoginTicket (.ok rSignInBody) (.ok body)).1 = .ok (.mfaRequired .email))) ∧
    (truthy lr.serviceTicketId = false → ¬ statusType lr = some "MFA_REQUIRED" →
      (getLoginTicket (.ok rSignInBody) (.ok body)).1
        = .error (.invalidCredentials
            "login failed (Ticket not found or MFA), please check username and password")) := by
  refine ⟨?_, ?_, ?_⟩
  · intro t ht hne
    have htr : truthy (some t) = true := by simp [truthy, hne]
    simp [getLoginTicket, hp, ht, htr]
  · intro htf hmfa
    refine ⟨by simp [getLoginTicket, hp, htf, hmfa], ?_⟩
    intro hnone
    have : parseMfaMethod (strOr none "email") = .email := rfl
    simp [getLoginTicket, hp, htf, hmfa, hnone, this]
  · intro htf hmfa
    simp [getLoginTicket, hp, htf, hmfa]

/-- A login body whose status requires MFA and omits the method field. -/
def mfaRequiredLoginBody : ResponseBody :=
  { parsed := some { responseStatus := some { type := "MFA_REQUIRED" } } }

/-- Concrete run of C9: the MFA_REQUIRED branch with an omitted method
defaults to email. -/
theorem C9_login_outcome_classification_witness :
    (getLoginTicket (.ok {}) (.ok mfaRequiredLoginBody)).1 = .ok (.mfaRequired .email) :=
  ((C9_login_outcome_classification {} mfaRequiredLoginBody
    { responseStatus := some { type := "MFA_REQUIRED" } } rfl).2.1 rfl rfl).2 rfl

/-- C7: a session handle built from a completed startAuthentication has
mfaRequired set exactly when no ticket is present, carries an MFA method
whenever MFA is required, and never mixes the MFA-required flag with a
token pair. -/
theorem C7_ticket_mfa_exclusivity (cookiesOut : String) (rSignIn rLogin : RawResult)
    (res : StartAuthResult)
    (_hres : startAuthentication cookiesOut rSignIn rLogin = .ok res) :
    ((createAuthContext res).mfaRequired = true ↔ (createAuthContext res).ticket = none) ∧
    ((createAuthContext res).mfaRequired = true → ¬ (createAuthContext res).mfaMethod = none) ∧
    ¬ ((createAuthContext res).mfaRequired = true ∧
        (¬ (createAuthContext res).oauth1Token = none ∨
         ¬ (createAuthContext res).oauth2Token = none)) := by
  cases res <;> simp [createAuthContext]

/-- Concrete run of C7 on an MFA-required login outcome. -/
theorem C7_ticket_mfa_exclusivity_witness :
    ((createAuthContext (.mfaRequired .email "jar")).mfaRequired = true ↔
      (createAuthContext (.mfaRequired .email "jar")).ticket = none) ∧
    ((createAuthContext (.mfaRequired .email "jar")).mfaRequired = true →
      ¬ (createAuthContext (.mfaRequired .email "jar")).mfaMethod = none) ∧
    ¬ ((createAuthContext (.mfaRequired .email "jar")).mfaRequired = true ∧
        (¬ (createAuthContext (.mfaRequired .email "jar")).oauth1Token = none ∨
         ¬ (createAuthContext (.mfaRequired .email "jar")).oauth2Token = none)) :=
  C7_ticket_mfa_exclusivity "jar" (.ok {}) (.ok mfaRequiredLoginBody)
    (.mfaRequired .email "jar") rfl

/-- A non-resolve step preserves the pre-resolve invariant. -/
theorem step_preResolve {s s2 : RefreshState} {e : RefreshEvent}
    (hP : PreResolve s) (hs : step s e = some s2)
    (hnr : ∀ tok, ¬ e = RefreshEvent.resolve tok) : PreResolve s2 := by
  obtain ⟨h1, hres, hcase⟩ := hP
  cases e with
  | call i =>
    cases hidx : s.tasks[i]? with
    | none => simp [step, hidx] at hs
    | some ts =>
      cases ts with
      | awaiting id => simp [step, hidx] at hs
      | done tk => simp [step, hidx] at hs
      | failed => simp [step, hidx] at hs
      | idle =>
        rcases hcase with ⟨hrf, hec, hall⟩ | ⟨hrf, hec, hall⟩
        · simp only [step, hidx, h1, hrf, Bool.not_true, Bool.false_eq_true, if_false,
            if_true, Option.some.injEq] at hs
          subst hs
          refine ⟨rfl, hres, Or.inr ⟨rfl, by simp [hec], ?_⟩⟩
          intro x hx
          rcases List.mem_or_eq_of_mem_set hx with hx2 | hx2
          · exact Or.inl (hall x hx2)
          · right
            rw [hx2, hec]
        · simp only [step, hidx, h1, hrf, Bool.not_true, Bool.false_eq_true, if_false,
            if_true, Option.some.injEq] at hs
          subst hs
          refine ⟨rfl, hres, Or.inr ⟨rfl, hec, ?_⟩⟩
          intro x hx
          rcases List.mem_or_eq_of_mem_set hx with hx2 | hx2
          · exact hall x hx2
          · right
            rw [hx2, hec]
  | resolve tok => exact absurd rfl (hnr tok)
  | resume i =>
    cases hidx : s.tasks[i]? with
    | none => simp [step, hidx] at hs
    | some ts =>
      cases ts with
      | idle => simp [step, hidx] at hs
      | done tk => simp [step, hidx] at hs
      | failed => simp [step, hidx] at hs
      | awaiting id => simp [step, hidx, hres, lookupResolved] at hs

/-- A resolve step from the pre-resolve invariant establishes the
post-resolve invariant for the resolved token. -/
theorem step_resolve {s s2 : RefreshState} {tok : String}
    (hP : PreResolve s) (hs : step s (.resolve tok) = some s2) : PostResolve tok s2 := by
  obtain ⟨h1, hres, hcase⟩ := hP
  rcases hcase with ⟨hrf, hec, hall⟩ | ⟨hrf, hec, hall⟩
  · simp [step, hrf] at hs
  · simp only [step, hrf, if_true, Option.some.injEq] at hs
    subst hs
    refine ⟨hec, rfl, by simp [hres, hec], rfl, ?_⟩
    intro x hx
    rcases hall x hx with h | h
    · exact Or.inl h
    · exact Or.inr (Or.inl h)

/-- A non-call step preserves the post-resolve invariant. -/
theorem step_postResolve {s s2 : RefreshState} {t : String} {e : RefreshEvent}
    (hQ : PostResolve t s) (hs : step s e = some s2)
    (hnc : ∀ i, ¬ e = RefreshEvent.call i) : PostResolve t s2 := by
  obtain ⟨hec, hrf, hres, hheld, hall⟩ := hQ
  cases e with
  | call i => exact absurd rfl (hnc i)
  | resolve tok => simp [step, hrf] at hs
  | resume i =>
    cases hidx : s.tasks[i]? with
    | none => simp [step, hidx] at hs
    | some ts =>
      cases ts with
      | idle => simp [step, hidx] at hs
      | done tk => simp [step, hidx] at hs
      | failed => simp [step, hidx] at hs
      | awaiting id =>
        have hmem : TaskState.awaiting id ∈ s.tasks := List.getElem?_mem hidx
        have hid : id = 1 := by
          rcases hall _ hmem with h | h | h <;> simp_all
        subst hid
        have hstep2 : step s (.resume i)
            = some { s with tasks := s.tasks.set i (TaskState.done t) } := by
          simp [step, hidx, hres, lookupResolved]
        rw [hstep2] at hs
        injection hs with hs2
        subst hs2
        refine ⟨hec, hrf, hres, hheld, ?_⟩
        intro x hx
        rcases List.mem_or_eq_of_mem_set hx with hx2 | hx2
        · exact hall x hx2
        · exact Or.inr (Or.inr hx2)

/-- Running a call-free trace preserves the post-resolve invariant. -/
theorem run_postResolve {es : List RefreshEvent} :
    ∀ {s s2 : RefreshState} {t : String}, PostResolve t s → run s es = some s2 →
      hasCall es = false → PostResolve t s2 := by
  induction es with
  | nil =>
    intro s s2 t hQ hrun _
    obtain rfl : s = s2 := by simpa [run] using hrun
    exact hQ
  | cons e rest ih =>
    intro s s2 t hQ hrun hnc
    cases hstep : step s e with
    | none => simp [run, hstep] at hrun
    | some smid =>
      simp only [run, hstep] at hrun
      cases e with
      | call i => simp [hasCall] at hnc
      | resolve tok =>
        exact ih (step_postResolve hQ hstep (fun i h => by cases h)) hrun
          (by simpa [hasCall] using hnc)
      | resume i =>
        exact ih (step_postResolve hQ hstep (fun i h => by cases h)) hrun
          (by simpa [hasCall] using hnc)

/-- Running a trace whose calls all precede its resolve, from a pre-resolve
state, lands in a pre-resolve state or in a post-resolve state for some
token. -/
theorem run_preResolve {es : List RefreshEvent} :
    ∀ {s s2 : RefreshState}, PreResolve s → run s es = some s2 →
      singleFlightPhase es = true →
      PreResolve s2 ∨ ∃ t, PostResolve t s2 := by
  induction es with
  | nil =>
    intro s s2 hP hrun _
    obtain rfl : s = s2 := by simpa [run] using hrun
    exact Or.inl hP
  | cons e rest ih =>
    intro s s2 hP hrun hphase
    cases hstep : step s e with
    | none => simp [run, hstep] at hrun
    | some smid =>
      simp only [run, hstep] at hrun
      cases e with
      | resolve tok =>
        have hQ := step_resolve hP hstep
        have hnc : hasCall rest = false := by simpa [singleFlightPhase] using hphase
        exact Or.inr ⟨tok, run_postResolve hQ hrun hnc⟩
      | call i =>
        exact ih (step_preResolve hP hstep (fun tok h => by cases h)) hrun
          (by simpa [singleFlightPhase] using hphase)
      | resume i =>
        exact ih (step_preResolve hP hstep (fun tok h => by cases h)) hrun
          (by simpa [singleFlightPhase] using hphase)

/-- C1: single-flight refresh. For any interleaving of N concurrent 401
handlers on a client holding both tokens, in which every handler invokes
refreshToken before the in-flight refresh resolves, if every handler
completes then exactly one exchange call was issued and every handler
completed with the one token that call produced (which is also the token
the client now holds). -/
theorem C1_single_flight_refresh (n : Nat) (oldTok : String) (es : List RefreshEvent)
    (s : RefreshState)
    (hrun : run (initState n oldTok) es = some s)
    (hphase : singleFlightPhase es = true)
    (hN : 2 ≤ s.tasks.length)
    (hdone : ∀ x ∈ s.tasks, TaskState.isDone x = true) :
    s.exchangeCalls = 1 ∧
    ∃ t, s.heldToken = some t ∧ ∀ x ∈ s.tasks, x = TaskState.done t := by
  have hinit : PreResolve (initState n oldTok) := by
    refine ⟨rfl, rfl, Or.inl ⟨rfl, rfl, ?_⟩⟩
    intro x hx
    exact List.eq_of_mem_replicate hx
  rcases run_preResolve hinit hrun hphase with hP | ⟨t, hQ⟩
  · exfalso
    obtain ⟨x, hx⟩ : ∃ x, x ∈ s.tasks := by
      cases hts : s.tasks with
      | nil => rw [hts] at hN; simp at hN
      | cons a l => exact ⟨a, List.mem_cons_self a l⟩
    have hd := hdone x hx
    obtain ⟨_, _, hcase⟩ := hP
    rcases hcase with ⟨_, _, hall⟩ | ⟨_, _, hall⟩
    · rw [hall x hx] at hd
      simp [TaskState.isDone] at hd
    · rcases hall x hx with h | h <;> rw [h] at hd <;> simp [TaskState.isDone] at hd
  · obtain ⟨hec, _, _, hheld, hall⟩ := hQ
    refine ⟨hec, t, hheld, ?_⟩
    intro x hx
    rcases hall x hx with h | h | h
    · exfalso
      have hd := hdone x hx
      rw [h] at hd
      simp [TaskState.isDone] at hd
    · exfalso
      have hd := hdone x hx
      rw [h] at hd
      simp [TaskState.isDone] at hd
    · exact h

/-- A concrete two-task interleaving: both handlers see the 401 and call
refreshToken before the single exchange call resolves. -/
def demoTrace : List RefreshEvent :=
  [.call 0, .call 1, .resolve "newTok", .resume 0, .resume 1]

/-- The state the demo trace reaches. -/
def demoFinal : RefreshState :=
  { oauth1Present := true, isRefreshing := false, exchangeCalls := 1,
    resolved := [(1, "newTok")], heldToken := some "newTok",
    tasks := [.done "newTok", .done "newTok"] }

/-- Concrete run of C1 on the demo trace. -/
theorem C1_single_flight_refresh_witness :
    demoFinal.exchangeCalls = 1 ∧
    ∃ t, demoFinal.heldToken = some t ∧ ∀ x ∈ demoFinal.tasks, x = TaskState.done t :=
  C1_single_flight_refresh 2 "oldTok" demoTrace demoFinal (by decide) (by decide)
    (by decide) (by decide)
